import Mathlib

/-!
Shallow embedding of the asynchronous bulk-unsubscribe subsystem of the
email-sort-app backend, together with proofs and refutations of the frozen
specification claims.

Embedded source files:
* `src/workers` unsubscribe worker (`src/unnamed/part_014`): the Bull job
  processor for `unsubscribe-email` — batch-job counter updates, task-result
  inserts, completion detection, and the catch branch that rethrows to the
  queue retry mechanism.
* `src/services/unsubscribe.js`: `UnsubscribeService.unsubscribeFromEmail`
  (the attempt runner: navigate, classify, branch, act, finalize, cleanup)
  and `performUnsubscribeAction`.
* `src/routes/unsubscribe.js`: the synchronous `POST /unsubscribe/batch`
  handler, the asynchronous `POST /unsubscribe/async/batch` handler.

External effects (Postgres, Redis/Bull, the Stagehand browser session) are
modelled as explicit state or as environment oracles; each SQL statement of
the source is translated to a pure state update, and each `page.extract` /
`page.goto` call reads one field of the oracle.
-/

/-! ### Batch-job rows and the worker's database updates (src/unnamed/part_014) -/

/-- Status column of an `unsubscribe_jobs` row. -/
inductive JobStatus
  | pending
  | processing
  | completed
  deriving DecidableEq, Repr

/-- One `unsubscribe_jobs` row. `completed_at_writes` counts how many times
the `completed_at` column has been assigned (the column itself only keeps the
last timestamp; the count is what the claims speak about). -/
structure BatchJob where
  status : JobStatus
  total_emails : Nat
  processed_count : Nat
  success_count : Nat
  failed_count : Nat
  completed_at_writes : Nat
  deriving DecidableEq, Repr

/-- One queued Bull task for a single email. `attemptsLeft` is the number of
attempts Bull will still grant (the route enqueues with `attempts: 3`). -/
structure QTask where
  email_id : Nat
  attemptsLeft : Nat
  deriving DecidableEq, Repr

/-- One `unsubscribe_job_results` row (append-only insert). -/
structure ResultRow where
  email_id : Nat
  success : Bool
  deriving DecidableEq, Repr

/-- Shared state of one batch: its job row, the queued tasks, and the
`unsubscribe_job_results` rows inserted so far. -/
structure WorkerState where
  job : BatchJob
  tasks : List QTask
  results : List ResultRow
  deriving DecidableEq, Repr

/-- Worker lines 19-24: `UPDATE unsubscribe_jobs SET status = 'processing'
WHERE id = $1 AND status = 'pending'`. -/
def markProcessing (j : BatchJob) : BatchJob :=
  if j.status = JobStatus.pending then { j with status := JobStatus.processing } else j

/-- Worker lines 69-77 (success path) and 139-147 (catch branch): the single
atomic `UPDATE ... SET processed_count = processed_count + 1,
success_count/failed_count = ... + 1` with `RETURNING`. -/
def incrementCounters (ok : Bool) (j : BatchJob) : BatchJob :=
  { j with
    processed_count := j.processed_count + 1
    success_count := j.success_count + (if ok then 1 else 0)
    failed_count := j.failed_count + (if ok then 0 else 1) }

/-- Worker lines 80-98 and 150-165: if the returned `processed_count` is at
least `total_emails`, run `UPDATE unsubscribe_jobs SET status = 'completed',
completed_at = NOW() WHERE id = $1`. The update carries no condition on the
current status, so it fires again on a job that is already completed. -/
def completeIfDone (j : BatchJob) : BatchJob :=
  if j.total_emails ≤ j.processed_count then
    { j with status := JobStatus.completed, completed_at_writes := j.completed_at_writes + 1 }
  else j

/-- The job-row effect of one worker attempt reaching a counter update:
mark processing, atomically increment, then the completion check on the
returned counts. `ok` selects the success path or the catch branch. -/
def recordAttempt (ok : Bool) (j : BatchJob) : BatchJob :=
  completeIfDone (incrementCounters ok (markProcessing j))

/-- Modelled from the spec: the completion update as the specification
describes it, guarded by `WHERE status != 'completed'` (this guard is absent
from the source; the definition exists only to be compared with
`completeIfDone`). -/
def completeIfDoneGuarded (j : BatchJob) : BatchJob :=
  if j.total_emails ≤ j.processed_count ∧ j.status ≠ JobStatus.completed then
    { j with status := JobStatus.completed, completed_at_writes := j.completed_at_writes + 1 }
  else j

/-- One observable step of the worker pool on a batch.

`succeed`: a worker runs a task to the end of the try block — it inserts a
`success = unsubscribeResult.success` row, runs the counter update and the
completion check, and the task is consumed. (`unsubscribeFromEmail` itself
never throws, so both `ok = true` and `ok = false` rows arise on this path;
the flag is free in the constructor.)

`fail`: an exception reaches the catch branch before the success-path counter
update (per the error-handling design this is a transient database or Redis
failure mid-task), and the catch branch's own writes succeed: it inserts a
`success = FALSE` row, runs the counter update and the completion check, and
rethrows; Bull then re-enqueues the task while attempts remain and drops it
once they are exhausted. -/
inductive Step : WorkerState → WorkerState → Prop
  | succeed (s s' : WorkerState) (ok : Bool) (pre post : List QTask) (t : QTask)
      (htasks : s.tasks = pre ++ t :: post)
      (hs' : s' = { job := recordAttempt ok s.job
                    tasks := pre ++ post
                    results := s.results ++ [{ email_id := t.email_id, success := ok }] }) :
      Step s s'
  | fail (s s' : WorkerState) (pre post : List QTask) (t : QTask)
      (htasks : s.tasks = pre ++ t :: post)
      (hs' : s' = { job := recordAttempt false s.job
                    tasks := pre ++
                      (if t.attemptsLeft ≤ 1 then post
                       else { email_id := t.email_id, attemptsLeft := t.attemptsLeft - 1 } :: post)
                    results := s.results ++ [{ email_id := t.email_id, success := false }] }) :
      Step s s'

/-- The batch state created by `POST /unsubscribe/async/batch` for `n`
eligible emails: a pending job row with all counters at zero and one queued
task per email, each with the route's `attempts: 3`. -/
def initState (n : Nat) : WorkerState :=
  { job := { status := JobStatus.pending, total_emails := n, processed_count := 0,
             success_count := 0, failed_count := 0, completed_at_writes := 0 }
    tasks := (List.range n).map (fun i => { email_id := i, attemptsLeft := 3 })
    results := [] }

/-- States reachable from `s₀` by interleaving worker steps. -/
inductive Reachable (s₀ : WorkerState) : WorkerState → Prop
  | refl : Reachable s₀ s₀
  | step {s t : WorkerState} : Reachable s₀ s → Step s t → Reachable s₀ t

/-- State of a 1-email batch after its task's first attempt hits the catch
branch: counters at 1, batch already marked completed, one failure row,
and the task re-enqueued by Bull with 2 attempts left. -/
def failOnceState : WorkerState :=
  { job := { status := JobStatus.completed, total_emails := 1, processed_count := 1,
             success_count := 0, failed_count := 1, completed_at_writes := 1 }
    tasks := [{ email_id := 0, attemptsLeft := 2 }]
    results := [{ email_id := 0, success := false }] }

/-- The same batch after the retried attempt hits the catch branch again:
counters incremented a second time for the same single task. -/
def failTwiceState : WorkerState :=
  { job := { status := JobStatus.completed, total_emails := 1, processed_count := 2,
             success_count := 0, failed_count := 2, completed_at_writes := 2 }
    tasks := [{ email_id := 0, attemptsLeft := 1 }]
    results := [{ email_id := 0, success := false }, { email_id := 0, success := false }]  }

theorem step_init_failOnce : Step (initState 1) failOnceState := by
  apply Step.fail (initState 1) failOnceState [] [] { email_id := 0, attemptsLeft := 3 }
  · decide
  · decide

theorem step_failOnce_failTwice : Step failOnceState failTwiceState := by
  apply Step.fail failOnceState failTwiceState [] [] { email_id := 0, attemptsLeft := 2 }
  · decide
  · decide

theorem reachable_failOnce : Reachable (initState 1) failOnceState :=
  Reachable.step Reachable.refl step_init_failOnce

theorem reachable_failTwice : Reachable (initState 1) failTwiceState :=
  Reachable.step reachable_failOnce step_failOnce_failTwice

/-- Neither branch of the completion check touches the three counters. -/
theorem completeIfDone_counts (j : BatchJob) :
    (completeIfDone j).processed_count = j.processed_count ∧
    (completeIfDone j).success_count = j.success_count ∧
    (completeIfDone j).failed_count = j.failed_count := by
  unfold completeIfDone
  split <;> simp

/-- `markProcessing` touches no counter. -/
theorem markProcessing_counts (j : BatchJob) :
    (markProcessing j).processed_count = j.processed_count ∧
    (markProcessing j).success_count = j.success_count ∧
    (markProcessing j).failed_count = j.failed_count := by
  unfold markProcessing
  split <;> simp

/-- Each counter update adds one to `processed_count` and one to exactly one
of `success_count`, `failed_count`. -/
theorem recordAttempt_counts (ok : Bool) (j : BatchJob) :
    (recordAttempt ok j).processed_count = j.processed_count + 1 ∧
    (recordAttempt ok j).success_count = j.success_count + (if ok then 1 else 0) ∧
    (recordAttempt ok j).failed_count = j.failed_count + (if ok then 0 else 1) := by
  rcases completeIfDone_counts (incrementCounters ok (markProcessing j)) with ⟨h1, h2, h3⟩
  rcases markProcessing_counts j with ⟨m1, m2, m3⟩
  refine ⟨?_, ?_, ?_⟩ <;>
    · simp only [recordAttempt, h1, h2, h3]
      simp [incrementCounters, m1, m2, m3]

/-- Each worker step preserves `success_count + failed_count = processed_count`. -/
theorem step_preserves_sum {s s' : WorkerState} (hstep : Step s s')
    (ih : s.job.success_count + s.job.failed_count = s.job.processed_count) :
    s'.job.success_count + s'.job.failed_count = s'.job.processed_count := by
  cases hstep with
  | succeed ok pre post t htasks hs' =>
    obtain ⟨h1, h2, h3⟩ := recordAttempt_counts ok s.job
    subst hs'
    show (recordAttempt ok s.job).success_count + (recordAttempt ok s.job).failed_count
        = (recordAttempt ok s.job).processed_count
    rw [h1, h2, h3]
    cases ok <;> simp <;> omega
  | fail pre post t htasks hs' =>
    obtain ⟨h1, h2, h3⟩ := recordAttempt_counts false s.job
    subst hs'
    show (recordAttempt false s.job).success_count + (recordAttempt false s.job).failed_count
        = (recordAttempt false s.job).processed_count
    rw [h1, h2, h3]
    simp
    omega

/-- The equality half of the batch-job invariant does hold: every reachable
state satisfies `success_count + failed_count = processed_count`, because the
single atomic counter update adds one to `processed_count` and one to exactly
one of the two outcome counters. -/
theorem sum_counts_invariant (n : Nat) (s : WorkerState)
    (h : Reachable (initState n) s) :
    s.job.success_count + s.job.failed_count = s.job.processed_count := by
  induction h with
  | refl => simp [initState]
  | step _ hstep ih => exact step_preserves_sum hstep ih

/-- Claim C1 (code_bug): the spec's invariant
`success_count + failed_count == processed_count ≤ total_emails` is violated
by the code on a reachable run. The catch branch of the worker increments
`processed_count`/`failed_count` and then rethrows so that Bull retries the
task (the route enqueues with `attempts: 3`); the retried attempt increments
the counters again, so a 1-email batch whose task fails twice reaches
`processed_count = 2 > total_emails = 1`. (The equality half does hold: see
`sum_counts_invariant`.) -/
theorem c1_processed_can_exceed_total :
    Reachable (initState 1) failTwiceState ∧
    failTwiceState.job.total_emails < failTwiceState.job.processed_count :=
  ⟨reachable_failTwice, by decide⟩

/-- Claim C2, counterexample: the completion update of the worker is
`UPDATE unsubscribe_jobs SET status = 'completed', completed_at = NOW()
WHERE id = $1`, with no condition on the current status. On a job row that is
already completed the unguarded update fires again (unlike the guarded update
the spec describes), and on the reachable run in which a 1-email batch's task
fails twice, `completed_at` is written twice over the job's lifetime. -/
theorem c2_completed_at_written_twice :
    (completeIfDone failOnceState.job).completed_at_writes = 2 ∧
    (completeIfDoneGuarded failOnceState.job).completed_at_writes = 1 ∧
    Reachable (initState 1) failTwiceState ∧
    failTwiceState.job.completed_at_writes = 2 :=
  ⟨by decide, by decide, reachable_failTwice, by decide⟩

/-- Claim C2, amended: the completion update is guarded only by the job id,
not by the current status — a worker performs it exactly when its
post-increment `processed_count` reaches `total_emails`, even on a job that
is already completed, so `completed_at` can be written more than once. -/
theorem c2_completion_update_unguarded (ok : Bool) (j : BatchJob) :
    (recordAttempt ok j).completed_at_writes =
      j.completed_at_writes + (if j.total_emails ≤ j.processed_count + 1 then 1 else 0) := by
  have hm : (markProcessing j).total_emails = j.total_emails ∧
      (markProcessing j).processed_count = j.processed_count ∧
      (markProcessing j).completed_at_writes = j.completed_at_writes := by
    unfold markProcessing
    split <;> simp
  obtain ⟨t1, t2, t3⟩ := hm
  simp only [recordAttempt, completeIfDone, incrementCounters]
  simp only [t1, t2, t3]
  split <;> simp [t3]

/-- Claim C3, counterexample: a `success = FALSE` row is inserted into
`unsubscribe_job_results` by the catch branch of every failed attempt, before
the rethrow that triggers the Bull retry. After the first failed attempt of a
1-email batch a failure row already exists while the task is still queued for
retry, and after the second failed attempt the same task has two rows —
contradicting "exactly one TaskResult row is ever inserted" and "no
TaskResult is recorded for a failed attempt that will still be retried". -/
theorem c3_two_result_rows_for_one_task :
    Reachable (initState 1) failOnceState ∧
    failOnceState.results = [{ email_id := 0, success := false }] ∧
    failOnceState.tasks = [{ email_id := 0, attemptsLeft := 2 }] ∧
    Reachable (initState 1) failTwiceState ∧
    (failTwiceState.results.filter (fun r => r.email_id == 0)).length = 2 :=
  ⟨reachable_failOnce, by decide, by decide, reachable_failTwice, by decide⟩

/-- Claim C3, amended: exactly one `unsubscribe_job_results` row is inserted
per attempt, not per task — a successful attempt inserts its result row, and
every failed attempt inserts a `success = FALSE` row even when queue-level
retries remain, so a task can accumulate several rows. -/
theorem c3_one_result_row_per_attempt {s s' : WorkerState} (h : Step s s') :
    s'.results.length = s.results.length + 1 := by
  cases h with
  | succeed ok pre post t htasks hs' =>
    subst hs'
    simp
  | fail pre post t htasks hs' =>
    subst hs'
    simp

theorem c3_one_result_row_per_attempt_witness :
    failOnceState.results.length = (initState 1).results.length + 1 :=
  c3_one_result_row_per_attempt step_init_failOnce

/-! ### The attempt runner (src/services/unsubscribe.js, UnsubscribeService) -/

/-- The `pageType` the classification extract yields. The zod schema of the
extract enumerates the first five values; `other` represents an unrecognized
value, which the `switch` statement of the source handles with a `default`
arm (and which the spec describes as the "unrecognized/default" branch). -/
inductive PageType
  | form
  | button
  | confirmation
  | already_unsubscribed
  | error
  | other
  deriving DecidableEq, Repr

/-- The classification extract result (lines 113-132): `pageType`,
`description`, `actionRequired`, optional `errorMessage`, optional
`hasResubscribeButton`. -/
structure PageAnalysis where
  pageType : PageType
  description : String
  actionRequired : Bool
  errorMessage : Option String
  hasResubscribeButton : Option Bool
  deriving DecidableEq, Repr

/-- The re-classification extract of the form/button branch (lines 177-189). -/
structure ActionCheck where
  success : Bool
  message : String
  confirmationText : Option String
  hasResubscribeButton : Option Bool
  deriving DecidableEq, Repr

/-- The re-classification extract of the default branch (lines 205-211),
whose schema carries only `success` and `message`. -/
structure GenericCheck where
  success : Bool
  message : String
  deriving DecidableEq, Repr

/-- Environment oracle for one run of `unsubscribeFromEmail`: the outcome of
session creation (`initializeStagehand`), of each of the up-to-3 `page.goto`
attempts, of the classification extract, and of the two possible
re-classification extracts. `.error e` means the corresponding `await`
rejected with message `e`. -/
structure StagehandEnv where
  init : Except String String
  nav1 : Except String Unit
  nav2 : Except String Unit
  nav3 : Except String Unit
  classify : Except String PageAnalysis
  afterActionCheck : Except String ActionCheck
  genericCheck : Except String GenericCheck
  deriving Repr

/-- JavaScript `x || y` on an optional string: an absent or empty (falsy)
`x` falls back to `y`. -/
def jsOrStr : Option String → String → String
  | some s, d => if s = "" then d else s
  | none, d => d

/-- Result shape of the attempt runner, uniform across all branches. -/
structure UnsubscribeResult where
  success : Bool
  message : String
  details : String
  sessionId : Option String
  deriving DecidableEq, Repr

/-- Everything observable about one call of `unsubscribeFromEmail`: the
returned result, how many times `stagehand.close()` ran in the `finally`
block, and how many times `performUnsubscribeAction` was invoked. -/
structure RunOutcome where
  result : UnsubscribeResult
  closes : Nat
  actCalls : Nat
  deriving DecidableEq, Repr

/-- Lines 69-107: the navigation retry loop (`maxRetries = 3`). Each failed
`goto` stores `lastError` and the loop retries; after the loop a surviving
`lastError` is thrown. -/
def navigate (env : StagehandEnv) : Except String Unit :=
  match env.nav1 with
  | Except.ok _ => Except.ok ()
  | Except.error _ =>
    match env.nav2 with
    | Except.ok _ => Except.ok ()
    | Except.error _ =>
      match env.nav3 with
      | Except.ok _ => Except.ok ()
      | Except.error e => Except.error e

/-- Lines 168-198, the `form`/`button` case: invoke
`performUnsubscribeAction` (counted as one call), wait, re-extract, and build
the result from `result.success || result.hasResubscribeButton === true`. -/
def actBranch (env : StagehandEnv) (sid : String) :
    Except String UnsubscribeResult × Nat :=
  match env.afterActionCheck with
  | Except.error e => (Except.error e, 1)
  | Except.ok r =>
    (Except.ok
      { success := r.success || r.hasResubscribeButton == some true
        message :=
          if r.hasResubscribeButton == some true then
            "Successfully unsubscribed (Resubscribe button found)"
          else r.message
        details :=
          jsOrStr r.confirmationText
            (if r.hasResubscribeButton == some true then
              "Unsubscribe button changed to Resubscribe"
            else "")
        sessionId := some sid }, 1)

/-- Lines 200-220, the `default` case: invoke `performUnsubscribeAction`,
wait, re-extract with the two-field schema, and return exactly
`genericResult.success`. -/
def genericBranch (env : StagehandEnv) (sid : String) :
    Except String UnsubscribeResult × Nat :=
  match env.genericCheck with
  | Except.error e => (Except.error e, 1)
  | Except.ok g =>
    (Except.ok
      { success := g.success
        message := g.message
        details := "Generic unsubscribe attempt"
        sessionId := some sid }, 1)

/-- The try block of `unsubscribeFromEmail` (lines 58-221): session creation,
navigation, classification, and the `switch` on `pageType`. The second
component counts invocations of `performUnsubscribeAction`; `.error` in the
first component is an exception propagating to the top-level catch. -/
def attemptBody (env : StagehandEnv) : Except String UnsubscribeResult × Nat :=
  match env.init with
  | Except.error e => (Except.error e, 0)
  | Except.ok sid =>
    match navigate env with
    | Except.error e => (Except.error e, 0)
    | Except.ok _ =>
      match env.classify with
      | Except.error e => (Except.error e, 0)
      | Except.ok pa =>
        match pa.pageType with
        | PageType.already_unsubscribed =>
          (Except.ok
            { success := true, message := "Already unsubscribed"
              details := pa.description, sessionId := some sid }, 0)
        | PageType.confirmation =>
          (Except.ok
            { success := true, message := "Unsubscribed successfully"
              details := pa.description, sessionId := some sid }, 0)
        | PageType.error =>
          (Except.ok
            { success := false, message := "Error on unsubscribe page"
              details := jsOrStr pa.errorMessage pa.description
              sessionId := some sid }, 0)
        | PageType.form => actBranch env sid
        | PageType.button => actBranch env sid
        | PageType.other => genericBranch env sid

/-- The `sessionId` local of `unsubscribeFromEmail`: `null` until session
creation succeeds, then the Browserbase session id. -/
def sessionOpt (env : StagehandEnv) : Option String :=
  match env.init with
  | Except.ok sid => some sid
  | Except.error _ => none

/-- `UnsubscribeService.unsubscribeFromEmail` (lines 54-242): run the try
block; the catch converts any exception into
`{success: false, message: 'Failed to process unsubscribe', details: error}`;
the `finally` closes the Stagehand session exactly when the `stagehand`
local was assigned, i.e. when `initializeStagehand` returned. -/
def unsubscribeFromEmail (env : StagehandEnv) : RunOutcome :=
  let body := attemptBody env
  let closes : Nat := match env.init with
    | Except.ok _ => 1
    | Except.error _ => 0
  match body.1 with
  | Except.ok r => { result := r, closes := closes, actCalls := body.2 }
  | Except.error e =>
    { result :=
        { success := false, message := "Failed to process unsubscribe"
          details := e, sessionId := sessionOpt env }
      closes := closes
      actCalls := body.2 }

/-! ### Concrete runner environments used in counterexamples and witnesses -/

/-- A classification extract describing a confirmation page. -/
def baseAnalysis : PageAnalysis :=
  { pageType := PageType.confirmation, description := "You have been unsubscribed"
    actionRequired := false, errorMessage := none, hasResubscribeButton := none }

/-- A form/button-branch re-extract with no explicit success flag but a
resubscribe button visible. -/
def baseActionCheck : ActionCheck :=
  { success := false, message := "No confirmation visible", confirmationText := none
    hasResubscribeButton := some true }

/-- A default-branch re-extract reporting no success. -/
def baseGenericCheck : GenericCheck :=
  { success := false, message := "Could not tell whether unsubscribe completed" }

/-- An environment in which every external call succeeds and the classifier
sees a confirmation page. -/
def baseEnv : StagehandEnv :=
  { init := Except.ok "sess-1"
    nav1 := Except.ok (), nav2 := Except.ok (), nav3 := Except.ok ()
    classify := Except.ok baseAnalysis
    afterActionCheck := Except.ok baseActionCheck
    genericCheck := Except.ok baseGenericCheck }

/-- Session creation (`initializeStagehand`) rejects. -/
def envInitFail : StagehandEnv :=
  { baseEnv with init := Except.error "session creation failed" }

/-- An unrecognized classification (the `default` arm of the `switch`). -/
def paOther : PageAnalysis := { baseAnalysis with pageType := PageType.other }

/-- Unrecognized page type, final page showing a resubscribe button (per
`baseActionCheck`), generic re-extract reporting no success. -/
def envOtherResub : StagehandEnv := { baseEnv with classify := Except.ok paOther }

/-- A `form` classification over the same page signals. -/
def paForm : PageAnalysis := { baseAnalysis with pageType := PageType.form }

def envFormResub : StagehandEnv := { baseEnv with classify := Except.ok paForm }

/-- An error page whose reported error text is present but empty. -/
def paErrEmpty : PageAnalysis :=
  { pageType := PageType.error, description := "The page reports a failure"
    actionRequired := false, errorMessage := some "", hasResubscribeButton := none }

def envErrEmpty : StagehandEnv := { baseEnv with classify := Except.ok paErrEmpty }

/-- Claim C4, counterexample: a session-creation failure is NOT rethrown —
the top-level catch of `unsubscribeFromEmail` converts it, like every other
exception, into the `{success: false, message: 'Failed to process
unsubscribe'}` result, which is returned normally to the caller (so the
queue's retry policy never sees it). -/
theorem c4_init_failure_converted :
    envInitFail.init = Except.error "session creation failed" ∧
    (attemptBody envInitFail).1 = Except.error "session creation failed" ∧
    (unsubscribeFromEmail envInitFail).result =
      { success := false, message := "Failed to process unsubscribe"
        details := "session creation failed", sessionId := none } :=
  ⟨rfl, rfl, rfl⟩

/-- Claim C4, amended: every exception raised inside the try block of the
Attempt Runner — navigation, classification, action execution, and also
session creation — is caught and converted into
`{success: false, message: 'Failed to process unsubscribe', details: <error
message>}`; nothing is propagated to the caller. -/
theorem c4_all_errors_converted (env : StagehandEnv) (e : String)
    (h : (attemptBody env).1 = Except.error e) :
    (unsubscribeFromEmail env).result =
      { success := false, message := "Failed to process unsubscribe"
        details := e, sessionId := sessionOpt env } := by
  simp [unsubscribeFromEmail, h]

theorem c4_all_errors_converted_witness :
    (unsubscribeFromEmail envInitFail).result =
      { success := false, message := "Failed to process unsubscribe"
        details := "session creation failed", sessionId := sessionOpt envInitFail } :=
  c4_all_errors_converted envInitFail "session creation failed" rfl

/-- The explicit success flag of the final (re-classification) check, as the
spec's "final determination" sentence reads for each acting branch. -/
def finalFlag (env : StagehandEnv) (pa : PageAnalysis) : Bool :=
  match pa.pageType with
  | PageType.form | PageType.button =>
    match env.afterActionCheck with
    | Except.ok r => r.success
    | Except.error _ => false
  | _ =>
    match env.genericCheck with
    | Except.ok g => g.success
    | Except.error _ => false

/-- Whether a resubscribe control is detected on the final page (the signal
the form/button re-extract reports in `hasResubscribeButton`). -/
def resubscribeSeen (env : StagehandEnv) : Bool :=
  match env.afterActionCheck with
  | Except.ok r => r.hasResubscribeButton == some true
  | Except.error _ => false

/-- Claim C5, counterexample: the claim reads "success equal to (explicit
success flag from the final check) OR (a resubscribe control is detected) —
either signal alone is sufficient in every such branch, including the
unrecognized/default branch". In the unrecognized/default branch the source
computes `success: genericResult.success` alone — the two-field generic
re-extract cannot even report a resubscribe control. On a run whose page is
classified unrecognized, whose final page shows a resubscribe control
(`resubscribeSeen`), and whose generic check reports `success: false`, the
claimed OR is `true` yet the runner returns `success = false`. -/
theorem c5_default_branch_ignores_resubscribe :
    envOtherResub.init = Except.ok "sess-1" ∧
    envOtherResub.classify = Except.ok paOther ∧
    paOther.pageType = PageType.other ∧
    resubscribeSeen envOtherResub = true ∧
    (finalFlag envOtherResub paOther || resubscribeSeen envOtherResub) = true ∧
    (unsubscribeFromEmail envOtherResub).result.success = false :=
  ⟨rfl, rfl, rfl, by decide, by decide, by decide⟩

/-- Claim C5, amended: in the `form`/`button` branch the Action Executor is
invoked and success equals the explicit flag OR the detected resubscribe
control; in the unrecognized/default branch the Action Executor is invoked
but success equals the generic check's explicit flag alone. -/
theorem c5_success_determination (env : StagehandEnv) (sid : String)
    (pa : PageAnalysis) (hinit : env.init = Except.ok sid)
    (hnav : navigate env = Except.ok ()) (hcls : env.classify = Except.ok pa) :
    ((pa.pageType = PageType.form ∨ pa.pageType = PageType.button) →
      ∀ r, env.afterActionCheck = Except.ok r →
        (unsubscribeFromEmail env).result.success
            = (r.success || r.hasResubscribeButton == some true) ∧
        (unsubscribeFromEmail env).actCalls = 1) ∧
    (pa.pageType = PageType.other →
      ∀ g, env.genericCheck = Except.ok g →
        (unsubscribeFromEmail env).result.success = g.success ∧
        (unsubscribeFromEmail env).actCalls = 1) := by
  constructor
  · rintro (h | h) r hr <;>
      simp [unsubscribeFromEmail, attemptBody, hinit, hnav, hcls, h, actBranch, hr]
  · intro h g hg
    simp [unsubscribeFromEmail, attemptBody, hinit, hnav, hcls, h, genericBranch, hg]

theorem c5_success_determination_witness :
    (unsubscribeFromEmail envFormResub).result.success
        = (baseActionCheck.success || baseActionCheck.hasResubscribeButton == some true) ∧
    (unsubscribeFromEmail envFormResub).actCalls = 1 :=
  (c5_success_determination envFormResub "sess-1" paForm rfl rfl rfl).1
    (Or.inl rfl) baseActionCheck rfl

/-- Claim C6 (confirmed): a page classified `confirmation` or
`already_unsubscribed` yields an immediate `success = true` and
`performUnsubscribeAction` is never invoked. -/
theorem c6_confirmation_immediate_success (env : StagehandEnv) (sid : String)
    (pa : PageAnalysis) (hinit : env.init = Except.ok sid)
    (hnav : navigate env = Except.ok ()) (hcls : env.classify = Except.ok pa)
    (hty : pa.pageType = PageType.confirmation ∨
      pa.pageType = PageType.already_unsubscribed) :
    (unsubscribeFromEmail env).result.success = true ∧
    (unsubscribeFromEmail env).actCalls = 0 := by
  rcases hty with h | h <;>
    simp [unsubscribeFromEmail, attemptBody, hinit, hnav, hcls, h]

theorem c6_confirmation_immediate_success_witness :
    (unsubscribeFromEmail baseEnv).result.success = true ∧
    (unsubscribeFromEmail baseEnv).actCalls = 0 :=
  c6_confirmation_immediate_success baseEnv "sess-1" baseAnalysis rfl rfl rfl
    (Or.inl rfl)

/-- Claim C7, counterexample: the claim reads "details equal to the
page-reported error text when it is present". The source computes
`details: pageAnalysis.errorMessage || pageAnalysis.description`, and the
JavaScript `||` treats a present-but-empty error text as falsy — on a page
whose reported error text is present but is the empty string, `details` is
the classifier's description `"The page reports a failure"`, not the
page-reported text `""`. -/
theorem c7_empty_error_text_falls_back :
    envErrEmpty.classify = Except.ok paErrEmpty ∧
    paErrEmpty.pageType = PageType.error ∧
    paErrEmpty.errorMessage = some "" ∧
    (unsubscribeFromEmail envErrEmpty).result.details = "The page reports a failure" ∧
    paErrEmpty.description = "The page reports a failure" :=
  ⟨rfl, rfl, rfl, by decide, rfl⟩

/-- Claim C7, amended: a page classified `error` yields `success = false`
with message `Error on unsubscribe page`; `details` equal the page-reported
error text when it is present and non-empty, and the classifier's
description otherwise; no action is attempted. -/
theorem c7_error_branch (env : StagehandEnv) (sid : String)
    (pa : PageAnalysis) (hinit : env.init = Except.ok sid)
    (hnav : navigate env = Except.ok ()) (hcls : env.classify = Except.ok pa)
    (hty : pa.pageType = PageType.error) :
    (unsubscribeFromEmail env).result.success = false ∧
    (unsubscribeFromEmail env).result.message = "Error on unsubscribe page" ∧
    (unsubscribeFromEmail env).result.details =
      (match pa.errorMessage with
       | some t => if t = "" then pa.description else t
       | none => pa.description) ∧
    (unsubscribeFromEmail env).actCalls = 0 := by
  have hrun : unsubscribeFromEmail env =
      { result :=
          { success := false, message := "Error on unsubscribe page"
            details := jsOrStr pa.errorMessage pa.description
            sessionId := some sid }
        closes := 1, actCalls := 0 } := by
    simp [unsubscribeFromEmail, attemptBody, hinit, hnav, hcls, hty]
  rw [hrun]
  refine ⟨rfl, rfl, ?_, rfl⟩
  cases pa.errorMessage with
  | none => simp [jsOrStr]
  | some t => simp [jsOrStr]

theorem c7_error_branch_witness :
    (unsubscribeFromEmail envErrEmpty).result.success = false ∧
    (unsubscribeFromEmail envErrEmpty).result.message = "Error on unsubscribe page" ∧
    (unsubscribeFromEmail envErrEmpty).result.details =
      (match paErrEmpty.errorMessage with
       | some t => if t = "" then paErrEmpty.description else t
       | none => paErrEmpty.description) ∧
    (unsubscribeFromEmail envErrEmpty).actCalls = 0 :=
  c7_error_branch envErrEmpty "sess-1" paErrEmpty rfl rfl rfl rfl

/-- Claim C8 (confirmed): whenever a browser session was acquired
(`initializeStagehand` returned), the `finally` block closes it exactly once
before `unsubscribeFromEmail` returns, on every branch and on every
exception path. -/
theorem c8_session_closed_once (env : StagehandEnv) (sid : String)
    (hinit : env.init = Except.ok sid) :
    (unsubscribeFromEmail env).closes = 1 := by
  rcases hbody : (attemptBody env).1 with e | r <;>
    simp [unsubscribeFromEmail, hbody, hinit]

theorem c8_session_closed_once_witness :
    (unsubscribeFromEmail baseEnv).closes = 1 :=
  c8_session_closed_once baseEnv "sess-1" rfl

/-! ### The batch route handlers (src/routes/unsubscribe.js) -/

/-- One row of the `emails` table as the two handlers read it. -/
structure EmailRow where
  id : Nat
  user_id : Nat
  unsubscribe_link : Option String
  deriving DecidableEq, Repr

/-- The eligibility query shared by both handlers (lines 30-35 and 148-153):
`SELECT ... FROM emails WHERE id IN (...) AND user_id = $1 AND
unsubscribe_link IS NOT NULL`. -/
def eligibleEmails (table : List EmailRow) (userId : Nat) (emailIds : List Nat) :
    List EmailRow :=
  table.filter (fun e => emailIds.contains e.id && e.user_id == userId &&
    e.unsubscribe_link.isSome)

/-- Observable outcome of `POST /unsubscribe/async/batch`: the HTTP status,
the `unsubscribe_jobs` row inserted (if any), and the Bull tasks enqueued. -/
structure AsyncBatchOutcome where
  httpStatus : Nat
  jobInserted : Option BatchJob
  enqueued : List QTask
  deriving DecidableEq, Repr

/-- The async batch handler (lines 133-213): validate the id list, run the
eligibility query, 404 when it is empty, otherwise insert a pending job row
with zeroed counters and `total_emails` = number of eligible rows and enqueue
one task per eligible email with `attempts: 3`. -/
def asyncBatchHandler (table : List EmailRow) (userId : Nat)
    (emailIds : List Nat) : AsyncBatchOutcome :=
  if emailIds.isEmpty then
    { httpStatus := 400, jobInserted := none, enqueued := [] }
  else
    let rows := eligibleEmails table userId emailIds
    if rows.isEmpty then
      { httpStatus := 404, jobInserted := none, enqueued := [] }
    else
      { httpStatus := 200
        jobInserted := some
          { status := JobStatus.pending, total_emails := rows.length
            processed_count := 0, success_count := 0, failed_count := 0
            completed_at_writes := 0 }
        enqueued := rows.map (fun e => { email_id := e.id, attemptsLeft := 3 }) }

/-- Claim C9 (confirmed): an async batch submission whose requested ids
contain no email that both belongs to the caller and has a non-null
unsubscribe link fails with 404, persists no `unsubscribe_jobs` row, and
enqueues no task. -/
theorem c9_empty_filter_404 (table : List EmailRow) (userId : Nat)
    (emailIds : List Nat) (hne : emailIds ≠ [])
    (hfil : eligibleEmails table userId emailIds = []) :
    asyncBatchHandler table userId emailIds =
      { httpStatus := 404, jobInserted := none, enqueued := [] } := by
  simp [asyncBatchHandler, hne, hfil]

theorem c9_empty_filter_404_witness :
    [7] ≠ ([] : List Nat) ∧
    eligibleEmails
        [{ id := 7, user_id := 2, unsubscribe_link := some "https://x.example/u" },
         { id := 8, user_id := 1, unsubscribe_link := none }] 1 [7, 8] = [] ∧
    asyncBatchHandler
        [{ id := 7, user_id := 2, unsubscribe_link := some "https://x.example/u" },
         { id := 8, user_id := 1, unsubscribe_link := none }] 1 [7, 8] =
      { httpStatus := 404, jobInserted := none, enqueued := [] } :=
  ⟨by decide, by decide,
    c9_empty_filter_404
      [{ id := 7, user_id := 2, unsubscribe_link := some "https://x.example/u" },
       { id := 8, user_id := 1, unsubscribe_link := none }] 1 [7, 8]
      (by decide) (by decide)⟩

/-- One entry of the synchronous handler's `results` array. -/
structure BatchEntry where
  emailId : Nat
  success : Bool
  message : String
  deriving DecidableEq, Repr

/-- The synchronous handler's `summary` object (lines 114-118). -/
structure BatchSummary where
  total : Nat
  successful : Nat
  failed : Nat
  deriving DecidableEq, Repr

/-- Observable outcome of `POST /unsubscribe/batch`. -/
structure SyncBatchResponse where
  httpStatus : Nat
  results : List BatchEntry
  summary : Option BatchSummary
  deriving DecidableEq, Repr

/-- The per-email loop body (lines 48-109). The success path starts with
`await req.db.query(...)`; `req.db` is never assigned by any middleware, so
when it is absent that statement throws and the per-email catch pushes
`{emailId, success: false, message: <error message>}`. When the statement
succeeds the runner result (which itself never throws) is recorded as
`{emailId, success, message}`. Database writes through the module-level `db`
are assumed to succeed. -/
def processEmailEntry (reqDbPresent : Bool) (tyErrMsg : String)
    (e : EmailRow) (attempt : UnsubscribeResult) : BatchEntry :=
  if reqDbPresent then
    { emailId := e.id, success := attempt.success, message := attempt.message }
  else
    { emailId := e.id, success := false, message := tyErrMsg }

/-- The synchronous batch handler (lines 11-130): validate the id list and
the 10-email cap, run the eligibility query, 404 when it is empty, otherwise
process each eligible email in order and answer with the per-email results
and the summary counts. `attempt` gives the runner result per email id. -/
def batchHandler (table : List EmailRow) (userId : Nat) (emailIds : List Nat)
    (reqDbPresent : Bool) (tyErrMsg : String)
    (attempt : Nat → UnsubscribeResult) : SyncBatchResponse :=
  if emailIds.isEmpty then
    { httpStatus := 400, results := [], summary := none }
  else if 10 < emailIds.length then
    { httpStatus := 400, results := [], summary := none }
  else
    let rows := eligibleEmails table userId emailIds
    if rows.isEmpty then
      { httpStatus := 404, results := [], summary := none }
    else
      let results := rows.map
        (fun e => processEmailEntry reqDbPresent tyErrMsg e (attempt e.id))
      { httpStatus := 200
        results := results
        summary := some
          { total := results.length
            successful := (results.filter (fun r => r.success)).length
            failed := (results.filter (fun r => !r.success)).length } }

/-- A boolean filter and its complement partition a list. -/
theorem filter_length_partition {α : Type} (p : α → Bool) (l : List α) :
    (l.filter p).length + (l.filter (fun a => !(p a))).length = l.length := by
  induction l with
  | nil => rfl
  | cons a t ih =>
    cases h : p a <;> simp [List.filter_cons, h] <;> omega

/-- Claim C10 (confirmed): a synchronous batch request that passes
validation answers 200 with exactly one result entry per eligible email, in
order and carrying that email's id, and the summary satisfies
`total = results.length`, `successful` = number of entries with
`success = true`, and `successful + failed = total`. -/
theorem c10_sync_batch_summary (table : List EmailRow) (userId : Nat)
    (emailIds : List Nat) (reqDbPresent : Bool) (tyErrMsg : String)
    (attempt : Nat → UnsubscribeResult)
    (hne : emailIds ≠ []) (hcap : emailIds.length ≤ 10)
    (hfil : eligibleEmails table userId emailIds ≠ []) :
    (batchHandler table userId emailIds reqDbPresent tyErrMsg attempt).httpStatus
        = 200 ∧
    (batchHandler table userId emailIds reqDbPresent tyErrMsg attempt).results.length
        = (eligibleEmails table userId emailIds).length ∧
    (batchHandler table userId emailIds reqDbPresent tyErrMsg attempt).results.map
        (fun r => r.emailId)
        = (eligibleEmails table userId emailIds).map (fun e => e.id) ∧
    (batchHandler table userId emailIds reqDbPresent tyErrMsg attempt).summary
        = some
          { total := (batchHandler table userId emailIds reqDbPresent tyErrMsg
              attempt).results.length
            successful := ((batchHandler table userId emailIds reqDbPresent tyErrMsg
              attempt).results.filter (fun r => r.success)).length
            failed := ((batchHandler table userId emailIds reqDbPresent tyErrMsg
              attempt).results.filter (fun r => !r.success)).length } ∧
    ((batchHandler table userId emailIds reqDbPresent tyErrMsg attempt).results.filter
        (fun r => r.success)).length
      + ((batchHandler table userId emailIds reqDbPresent tyErrMsg attempt).results.filter
        (fun r => !r.success)).length
      = (batchHandler table userId emailIds reqDbPresent tyErrMsg attempt).results.length := by
  have hcap2 : ¬ (10 < emailIds.length) := by omega
  refine ⟨?_, ?_, ?_, ?_, ?_⟩
  · simp [batchHandler, hne, hcap2, hfil]
  · simp [batchHandler, hne, hcap2, hfil]
  · simp only [batchHandler, hne, List.isEmpty_eq_true, hcap2, if_false, hfil,
      ite_false, List.map_map]
    simp [processEmailEntry]
    intro e _
    cases reqDbPresent <;> simp [processEmailEntry]
  · simp [batchHandler, hne, hcap2, hfil]
  · exact filter_length_partition (fun r : BatchEntry => r.success) _

/-- Concrete `emails` table used in the C10 witness: two emails of user 1,
both with links. -/
def c10Table : List EmailRow :=
  [{ id := 3, user_id := 1, unsubscribe_link := some "https://a.example/u" },
   { id := 4, user_id := 1, unsubscribe_link := some "https://b.example/u" }]

/-- Concrete runner outcomes used in the C10 witness: email 3 succeeds,
email 4 fails. -/
def c10Attempt : Nat → UnsubscribeResult :=
  fun i => { success := i == 3, message := "attempted", details := "", sessionId := none }

theorem c10_sync_batch_summary_witness :
    (batchHandler c10Table 1 [3, 4] true "req.db is undefined" c10Attempt).httpStatus
        = 200 ∧
    (batchHandler c10Table 1 [3, 4] true "req.db is undefined" c10Attempt).results.length
        = (eligibleEmails c10Table 1 [3, 4]).length ∧
    (batchHandler c10Table 1 [3, 4] true "req.db is undefined" c10Attempt).results.map
        (fun r => r.emailId)
        = (eligibleEmails c10Table 1 [3, 4]).map (fun e => e.id) ∧
    (batchHandler c10Table 1 [3, 4] true "req.db is undefined" c10Attempt).summary
        = some
          { total := (batchHandler c10Table 1 [3, 4] true "req.db is undefined"
              c10Attempt).results.length
            successful := ((batchHandler c10Table 1 [3, 4] true "req.db is undefined"
              c10Attempt).results.filter (fun r => r.success)).length
            failed := ((batchHandler c10Table 1 [3, 4] true "req.db is undefined"
              c10Attempt).results.filter (fun r => !r.success)).length } ∧
    ((batchHandler c10Table 1 [3, 4] true "req.db is undefined" c10Attempt).results.filter
        (fun r => r.success)).length
      + ((batchHandler c10Table 1 [3, 4] true "req.db is undefined" c10Attempt).results.filter
        (fun r => !r.success)).length
      = (batchHandler c10Table 1 [3, 4] true "req.db is undefined" c10Attempt).results.length :=
  c10_sync_batch_summary c10Table 1 [3, 4] true "req.db is undefined" c10Attempt
    (by decide) (by decide) (by decide)
